import Mathlib

/-!
Shallow embedding of `src/app.py` (surf-bot-whatsapp).

Modelling conventions:
* UTC instants are seconds since the epoch (`ℕ`); the cache's hour bucket
  `YYYY-MM-DDTHH` string is represented by the bucket number `t / 3600`
  (strftime/strptime on that format is a bijection between hour buckets and
  their strings), and a calendar date by the day number `t / 86400`.
* Python floats are modelled as `ℚ`; JSON objects as association lists; a
  JSON value that may be `null` as `Option ℚ`.
* Network calls are modelled by passing the outcome the HTTP layer would
  produce (`HttpOutcome`): an exception (`netError`, covering timeouts and
  connection errors) or a status code with a parsed body.
* `get_surf_forecast` returns an `Outcome` recording, besides the reply
  string and the cache after the call, which effects the run performed
  (cache consulted, primary request issued, fallback invoked, aggregation
  reached).
-/

/-- Per-source values of one Stormglass parameter for one hour:
a JSON object mapping source name to a possibly-null number. -/
abbrev SourceMap := List (String × Option ℚ)

/-- One element of the Stormglass `hours` array.  `time` is the calendar
date (day number) parsed from the record's ISO `time` field; `none` models
a missing or unparseable `time` (app.py lines 145-151 skip such records). -/
structure HourRecord where
  time : Option ℕ
  waveHeight : SourceMap
  wavePeriod : SourceMap
  windSpeed : SourceMap
  windDirection : SourceMap
deriving DecidableEq, Repr

/-- The dict appended to `forecast_per_day[date_key]` (app.py lines 169-174). -/
structure HourlyMeasure where
  wave_height : ℚ
  wave_period : ℚ
  wind_speed : ℚ
  wind_dir : ℚ
deriving DecidableEq, Repr

/-- The aggregates computed at app.py lines 186-190. -/
structure Summary where
  avg_wave_height : ℚ
  avg_wave_period : ℚ
  avg_wind_speed : ℚ
  avg_wind_dir : ℚ
  wind_dir_str : String
deriving DecidableEq, Repr

/-- First-match association-list lookup, modelling Python dict access
(insertion order is irrelevant to lookup; a later `d[k] = v` is modelled
by consing, so the first match is the current binding). -/
def alistLookup {α β : Type} [DecidableEq α] : List (α × β) → α → Option β
  | [], _ => none
  | (k, v) :: rest, key => if k = key then some v else alistLookup rest key

/-- SPOTS (app.py lines 14-19). -/
def SPOTS : List (String × ℚ × ℚ) :=
  [("balneario", (-26.9931, -48.6350)),
   ("guarda", (-27.9496, -48.6189)),
   ("itajai", (-26.9101, -48.6536)),
   ("floripa", (-27.5954, -48.5480))]

/-- SOURCES_PRIORITY (app.py line 22). -/
def SOURCES_PRIORITY : List String := ["noaa", "sg", "meteo"]

/-- CACHE_TTL_MINUTES (app.py line 27). -/
def CACHE_TTL_MINUTES : ℕ := 30

/-- The in-memory CACHE dict keyed by `(spot, hour-bucket)` (app.py line 25).
The lock only serialises single map accesses and is invisible to this
sequential model. -/
abbrev Cache := List ((String × ℕ) × String)

/-- The compass labels of `degrees_to_direction` (app.py line 30). -/
def dirs : List String :=
  ["Norte", "Nordeste", "Leste", "Sudeste", "Sul", "Sudoeste", "Oeste", "Noroeste"]

/-- Python `int(q)`: truncation toward zero. -/
def pyInt (q : ℚ) : ℤ := if 0 ≤ q then ⌊q⌋ else ⌈q⌉

/-- degrees_to_direction (app.py lines 29-32).  Python `%` with a positive
modulus is `Int.emod`; `dirs[ix]` with the (provably in-range) index is
`List.getD` with an arbitrary default. -/
def degrees_to_direction (degrees : ℚ) : String :=
  let ix := (pyInt ((degrees + 22.5) / 45)).emod 8
  dirs.getD ix.toNat ""

/-- The hour bucket of an instant: number of the UTC hour, standing for the
`strftime('%Y-%m-%dT%H')` string (app.py lines 42-43). -/
def hourBucket (t : ℕ) : ℕ := t / 3600

/-- The UTC calendar date (day number) of an instant, `now.date()`. -/
def dateOf (t : ℕ) : ℕ := t / 86400

/-- is_cache_valid (app.py lines 34-39): re-parse the bucket string and
compare elapsed seconds since the bucket's start against the TTL.  The
subtraction is over `ℤ` as in Python; the `except` branch is unreachable
for keys produced by the code (they always re-parse). -/
def is_cache_valid (bucket : ℕ) (now : ℕ) : Bool :=
  decide ((now : ℤ) - bucket * 3600 < CACHE_TTL_MINUTES * 60)

/-- get_cached_forecast (app.py lines 41-49).  `if entry and is_cache_valid`:
Python truthiness of the string is the `entry ≠ ""` conjunct. -/
def get_cached_forecast (cache : Cache) (spot : String) (now : ℕ) : Option String :=
  match alistLookup cache (spot, hourBucket now) with
  | some entry =>
      if entry ≠ "" ∧ is_cache_valid (hourBucket now) now then some entry else none
  | none => none

/-- set_cached_forecast (app.py lines 51-55); dict assignment is modelled by
consing, which the first-match lookup reads as an overwrite. -/
def set_cached_forecast (cache : Cache) (spot msg : String) (now : ℕ) : Cache :=
  ((spot, hourBucket now), msg) :: cache

/-- Outcome of an HTTP request: an exception (timeout / connection error)
or a status code with the parsed body. -/
inductive HttpOutcome (β : Type) where
  | netError
  | response (status : ℕ) (body : β)
deriving DecidableEq, Repr

/-- The `hourly` object of an Open-Meteo response (app.py lines 75-77). -/
structure MeteoHourly where
  wave_height : List ℚ
  wind_speed : List ℚ
deriving DecidableEq, Repr

/-- Python `f"{x:.1f}"` on our exact rationals: round to the nearest tenth
and print one decimal (float representation error is below this model). -/
def fmt1 (q : ℚ) : String :=
  let n : ℤ := round (q * 10)
  let sign := if n < 0 then "-" else ""
  sign ++ toString (n.natAbs / 10) ++ "." ++ toString (n.natAbs % 10)

/-- fallback_open_meteo (app.py lines 57-90), given the outcome of its HTTP
request.  Returns `none` on network error, non-200 status, or empty data. -/
def fallback_open_meteo (r : HttpOutcome MeteoHourly) : Option String :=
  match r with
  | .netError => none
  | .response status data =>
      if status ≠ 200 then none
      else if data.wave_height = [] ∨ data.wind_speed = [] then none
      else
        let avg_wave := data.wave_height.sum / (data.wave_height.length : ℚ)
        let avg_wind := data.wind_speed.sum / (data.wind_speed.length : ℚ)
        some ("🌊 Fallback Open-Meteo (24 h):\n• Altura média das ondas: "
          ++ fmt1 avg_wave ++ " m\n• Vento médio: " ++ fmt1 avg_wind
          ++ " m/s\nℹ️ Dados de outra fonte gratuita.")

/-- Python `fb or default`: the default when `fb` is `None` or falsy (empty). -/
def pyOr (a : Option String) (b : String) : String :=
  match a with
  | some s => if s = "" then b else s
  | none => b

/-- One Python dict `.get(src)` on a parameter's per-source object: absent
key and stored `null` both give `None`. -/
def dictGet (m : SourceMap) (src : String) : Option ℚ :=
  (alistLookup m src).getD none

/-- The loop body of get_param_value (app.py lines 156-161): scan a source
list in order, return the first non-null value. -/
def firstSourceValue : List String → SourceMap → Option ℚ
  | [], _ => none
  | src :: rest, m =>
      match dictGet m src with
      | some v => some v
      | none => firstSourceValue rest m

/-- get_param_value (app.py lines 156-161), as a function of the selected
parameter's per-source object (the Python closure captures `hour_data` and
takes the parameter name; selecting the record field at the call site is
the same access). -/
def get_param_value (m : SourceMap) : Option ℚ :=
  firstSourceValue SOURCES_PRIORITY m

/-- Lines 163-174: resolve the four parameters of one hour; the measure is
kept only if `None not in (wh, wp, ws, wd)`. -/
def resolveHour (h : HourRecord) : Option HourlyMeasure :=
  match get_param_value h.waveHeight, get_param_value h.wavePeriod,
        get_param_value h.windSpeed, get_param_value h.windDirection with
  | some wh, some wp, some ws, some wd => some ⟨wh, wp, ws, wd⟩
  | _, _, _, _ => none

/-- Line 153-154: `if date_key not in forecast_per_day: forecast_per_day[date_key] = []`.
Python dicts keep insertion order, so a fresh key goes to the end. -/
def insertDay (fpd : List (ℕ × List HourlyMeasure)) (d : ℕ) :
    List (ℕ × List HourlyMeasure) :=
  if (alistLookup fpd d).isSome then fpd else fpd ++ [(d, [])]

/-- Line 169: `forecast_per_day[date_key].append(measure)` — append to the
binding of `d` (dict keys are unique, so updating the first occurrence is
the dict update). -/
def appendMeasure : List (ℕ × List HourlyMeasure) → ℕ → HourlyMeasure →
    List (ℕ × List HourlyMeasure)
  | [], _, _ => []
  | (k, v) :: rest, d, m =>
      if k = d then (k, v ++ [m]) :: rest else (k, v) :: appendMeasure rest d m

/-- One iteration of the loop at app.py lines 144-174. -/
def groupStep (fpd : List (ℕ × List HourlyMeasure)) (h : HourRecord) :
    List (ℕ × List HourlyMeasure) :=
  match h.time with
  | none => fpd
  | some d =>
      let fpd' := insertDay fpd d
      match resolveHour h with
      | some m => appendMeasure fpd' d m
      | none => fpd'

/-- The whole loop: builds `forecast_per_day` (app.py lines 143-174). -/
def group_by_day (hours : List HourRecord) : List (ℕ × List HourlyMeasure) :=
  hours.foldl groupStep []

/-- Direct characterisation used in the theorems: the fully-resolved
measures of the hours carrying date `d`, in input order. -/
def selectedMeasures (hours : List HourRecord) (d : ℕ) : List HourlyMeasure :=
  hours.filterMap fun h => if h.time = some d then resolveHour h else none

/-- The aggregation of app.py lines 186-190: per-field arithmetic mean and
the encoding of the averaged wind direction. -/
def aggregate (measures : List HourlyMeasure) : Summary :=
  let n : ℚ := measures.length
  let awd := (measures.map (·.wind_dir)).sum / n
  { avg_wave_height := (measures.map (·.wave_height)).sum / n
    avg_wave_period := (measures.map (·.wave_period)).sum / n
    avg_wind_speed := (measures.map (·.wind_speed)).sum / n
    avg_wind_dir := awd
    wind_dir_str := degrees_to_direction awd }

/-- The message built at lines 177 and 192-195 (`spot_name.title()` on the
single-word spot keys is `String.capitalize`). -/
def renderForecast (spot : String) (s : Summary) : String :=
  "🌊 Previsão para " ++ spot.capitalize ++ " (próximas 24 h):\n"
    ++ "\n• Ondas: " ++ fmt1 s.avg_wave_height ++ " m / "
    ++ fmt1 s.avg_wave_period ++ " s\n• Vento: " ++ fmt1 s.avg_wind_speed
    ++ " m/s (" ++ s.wind_dir_str ++ ")\n"

/-- The world a single `get_surf_forecast` call runs in: the current UTC
instant and the outcomes the two HTTP endpoints would deliver if called. -/
structure Env where
  now : ℕ
  primary : HttpOutcome (List HourRecord)
  fallback : HttpOutcome MeteoHourly

/-- Result of one `get_surf_forecast` call: the reply string, the cache
after the call, and which effects the run performed. -/
structure Outcome where
  reply : String
  cache : Cache
  cacheChecked : Bool
  primaryCalled : Bool
  fallbackCalled : Bool
  aggregated : Bool
deriving DecidableEq, Repr

/-- get_surf_forecast (app.py lines 92-199).  The URL strings and logging
are not observable here; `response.json()['hours']` is the parsed body of
the primary outcome (a missing `hours` field is the empty list, line 134).
`if cached:` at line 98 coincides with the `some` match because
`get_cached_forecast` never returns `some ""`. -/
def get_surf_forecast (env : Env) (cache : Cache) (spot_name : String) : Outcome :=
  match alistLookup SPOTS spot_name with
  | none =>
      { reply := "Praia não encontrada. Exemplo: surf balneario", cache := cache,
        cacheChecked := false, primaryCalled := false, fallbackCalled := false,
        aggregated := false }
  | some _ =>
      match get_cached_forecast cache spot_name env.now with
      | some cached =>
          { reply := cached, cache := cache, cacheChecked := true,
            primaryCalled := false, fallbackCalled := false, aggregated := false }
      | none =>
          match env.primary with
          | .netError =>
              { reply := pyOr (fallback_open_meteo env.fallback)
                  "Não consegui obter a previsão no momento 😞",
                cache := cache, cacheChecked := true, primaryCalled := true,
                fallbackCalled := true, aggregated := false }
          | .response status hours =>
              if status = 402 then
                { reply := pyOr (fallback_open_meteo env.fallback)
                    "Não consegui obter a previsão no momento 😞",
                  cache := cache, cacheChecked := true, primaryCalled := true,
                  fallbackCalled := true, aggregated := false }
              else if status ≠ 200 then
                { reply := "Não consegui obter a previsão no momento 😞",
                  cache := cache, cacheChecked := true, primaryCalled := true,
                  fallbackCalled := false, aggregated := false }
              else if hours = [] then
                { reply := pyOr (fallback_open_meteo env.fallback)
                    "Dados insuficientes para gerar a previsão no momento 😞",
                  cache := cache, cacheChecked := true, primaryCalled := true,
                  fallbackCalled := true, aggregated := false }
              else
                let today := dateOf env.now
                let measures := (alistLookup (group_by_day hours) today).getD []
                if measures = [] then
                  { reply := pyOr (fallback_open_meteo env.fallback)
                      "Dados insuficientes para gerar a previsão no momento 😞",
                    cache := cache, cacheChecked := true, primaryCalled := true,
                    fallbackCalled := true, aggregated := false }
                else
                  let msg := renderForecast spot_name (aggregate measures)
                  { reply := msg,
                    cache := set_cached_forecast cache spot_name msg env.now,
                    cacheChecked := true, primaryCalled := true,
                    fallbackCalled := false, aggregated := true }

/-- Modelled from the spec: the "up to 3 day" aggregation calling mode of
§4.6 is not present in src/app.py (the file only builds the 24-hour
message); per the spec it buckets measures by date via the same grouping,
reports 3 consecutive dates in chronological order starting at `d0`, and
marks a date with zero valid measures as insufficient data (`none`) rather
than omitting it. -/
def threeDayReport (hours : List HourRecord) (d0 : ℕ) : List (ℕ × Option Summary) :=
  [d0, d0 + 1, d0 + 2].map fun d =>
    let ms := (alistLookup (group_by_day hours) d).getD []
    (d, if ms = [] then none else some (aggregate ms))

/-- For the key the code itself builds (the current hour's bucket), the TTL
check compares the seconds elapsed inside the current hour against 1800. -/
theorem is_cache_valid_current (now : ℕ) :
    is_cache_valid (hourBucket now) now = decide (now % 3600 < 1800) := by
  simp only [is_cache_valid, hourBucket, CACHE_TTL_MINUTES]
  rw [decide_eq_decide]
  omega

/-- From minute 30 of the hour on, every lookup misses. -/
theorem get_cached_forecast_eq_none_of_late (cache : Cache) (spot : String) (now : ℕ)
    (h : 1800 ≤ now % 3600) : get_cached_forecast cache spot now = none := by
  unfold get_cached_forecast
  cases alistLookup cache (spot, hourBucket now) with
  | none => rfl
  | some entry =>
      simp only [is_cache_valid_current, decide_eq_true_eq]
      rw [if_neg]
      intro hc
      omega

/-- C1 counterexample: a put at second 1800 of UTC hour 0 followed by a get
at second 1900 of the same UTC hour misses, because `is_cache_valid` also
enforces a 30-minute TTL measured from the start of the hour bucket;
validity is not defined solely by bucket identity. -/
theorem cache_roundtrip_counterexample :
    get_cached_forecast (set_cached_forecast [] "balneario" "X" 1800) "balneario" 1900
      = none := by decide

/-- C1 (amended): a put of non-empty text followed by a get for the same
location in the same UTC hour bucket returns the text provided the get
happens before minute 30 of the hour; a get for a different location, or
one in a different hour bucket, misses.  Validity is bucket identity plus
the 30-minute bound on seconds elapsed since the bucket's start. -/
theorem cache_roundtrip_amended (spot other text : String) (tput tget : ℕ)
    (hne : text ≠ "") (hb : hourBucket tput = hourBucket tget)
    (hm : tget % 3600 < 1800) :
    get_cached_forecast (set_cached_forecast [] spot text tput) spot tget = some text ∧
    (other ≠ spot →
      get_cached_forecast (set_cached_forecast [] spot text tput) other tget = none) ∧
    (∀ tlate, hourBucket tlate ≠ hourBucket tput →
      get_cached_forecast (set_cached_forecast [] spot text tput) spot tlate = none) := by
  refine ⟨?_, ?_, ?_⟩
  · simp only [get_cached_forecast, set_cached_forecast, alistLookup, hb, if_pos rfl,
      is_cache_valid_current]
    exact if_pos ⟨hne, decide_eq_true hm⟩
  · intro hother
    simp only [get_cached_forecast, set_cached_forecast, alistLookup]
    rw [if_neg (fun hc => hother ((Prod.ext_iff.mp hc).1).symm)]
  · intro tlate hlate
    simp only [get_cached_forecast, set_cached_forecast, alistLookup]
    rw [if_neg (fun hc => hlate ((Prod.ext_iff.mp hc).2).symm)]

/-- C1 amended witness at a concrete input. -/
theorem cache_roundtrip_amended_witness :
    get_cached_forecast (set_cached_forecast [] "guarda" "X" 0) "guarda" 60 = some "X" ∧
    get_cached_forecast (set_cached_forecast [] "guarda" "X" 0) "itajai" 60 = none ∧
    get_cached_forecast (set_cached_forecast [] "guarda" "X" 0) "guarda" 3600 = none := by
  obtain ⟨h1, h2, h3⟩ :=
    cache_roundtrip_amended "guarda" "itajai" "X" 0 60 (by decide) (by decide) (by decide)
  exact ⟨h1, h2 (by decide), h3 3600 (by decide)⟩

/-- C2: a stored entry is returned only while fewer than 30 minutes
(`CACHE_TTL_MINUTES * 60` seconds) have elapsed since the start of the
current UTC hour bucket; at or after minute 30 every lookup misses, for
every cache contents (in particular for an entry stored moments before). -/
theorem cache_get_only_first_half_hour (cache : Cache) (spot : String) (now : ℕ) :
    (1800 ≤ now % 3600 → get_cached_forecast cache spot now = none) ∧
    (∀ e, get_cached_forecast cache spot now = some e → now % 3600 < 1800) := by
  refine ⟨fun h => get_cached_forecast_eq_none_of_late cache spot now h, ?_⟩
  intro e he
  by_contra hlt
  push_neg at hlt
  rw [get_cached_forecast_eq_none_of_late cache spot now hlt] at he
  cases he

/-- C2 witness: an entry stored at second 1799 of the hour is already a
miss when looked up at second 1800 (minute 30) of the same hour. -/
theorem cache_get_only_first_half_hour_witness :
    get_cached_forecast (set_cached_forecast [] "balneario" "M" 1799) "balneario" 1800
      = none :=
  (cache_get_only_first_half_hour (set_cached_forecast [] "balneario" "M" 1799)
    "balneario" 1800).1 (by decide)

/-- C9: the direction encoder is total — every rational bearing is mapped
to one of the 8 fixed labels — and it takes the specified values at 0°,
45°, 359° and 203°, computed by adding 22.5, dividing by 45, truncating
to an integer and reducing modulo 8. -/
theorem direction_encoder_total_and_values (q : ℚ) :
    degrees_to_direction q ∈ dirs ∧
    degrees_to_direction 0 = "Norte" ∧
    degrees_to_direction 45 = "Nordeste" ∧
    degrees_to_direction 359 = "Norte" ∧
    degrees_to_direction 203 = "Sudoeste" := by
  refine ⟨?_, by norm_num [degrees_to_direction, pyInt, dirs] <;> decide,
    by norm_num [degrees_to_direction, pyInt, dirs] <;> decide,
    by norm_num [degrees_to_direction, pyInt, dirs] <;> decide,
    by norm_num [degrees_to_direction, pyInt, dirs] <;> decide⟩
  have h8 : ((pyInt ((q + 22.5) / 45)).emod 8).toNat < 8 := by
    have h1 : 0 ≤ (pyInt ((q + 22.5) / 45)).emod 8 :=
      Int.emod_nonneg _ (by norm_num)
    have h2 : (pyInt ((q + 22.5) / 45)).emod 8 < 8 :=
      Int.emod_lt_of_pos _ (by norm_num)
    omega
  simp only [degrees_to_direction]
  generalize hk : ((pyInt ((q + 22.5) / 45)).emod 8).toNat = k at h8
  interval_cases k <;> decide

/-- C10: an unknown location key returns the fixed "not found" message
immediately: the cache is not consulted or mutated, and neither the
primary nor the fallback provider is called. -/
theorem unknown_location_short_circuit (env : Env) (cache : Cache) (spot : String)
    (h : alistLookup SPOTS spot = none) :
    get_surf_forecast env cache spot =
      { reply := "Praia não encontrada. Exemplo: surf balneario", cache := cache,
        cacheChecked := false, primaryCalled := false, fallbackCalled := false,
        aggregated := false } := by
  simp [get_surf_forecast, h]

/-- C10 witness at a concrete unknown key. -/
theorem unknown_location_short_circuit_witness :
    get_surf_forecast
        { now := 0, primary := HttpOutcome.netError, fallback := HttpOutcome.netError }
        [] "copacabana" =
      { reply := "Praia não encontrada. Exemplo: surf balneario", cache := [],
        cacheChecked := false, primaryCalled := false, fallbackCalled := false,
        aggregated := false } :=
  unknown_location_short_circuit
    { now := 0, primary := HttpOutcome.netError, fallback := HttpOutcome.netError }
    [] "copacabana" (by decide)

/-- Lookup distributes over list append, first list first. -/
theorem alistLookup_append {α β : Type} [DecidableEq α] (l1 l2 : List (α × β)) (key : α) :
    alistLookup (l1 ++ l2) key = (alistLookup l1 key).or (alistLookup l2 key) := by
  induction l1 with
  | nil => simp [alistLookup]
  | cons p rest ih =>
      obtain ⟨k, v⟩ := p
      by_cases h : k = key <;> simp [alistLookup, h, ih]

/-- Appending a measure to day `d` updates exactly day `d`'s list. -/
theorem alistLookup_appendMeasure (fpd : List (ℕ × List HourlyMeasure)) (d d' : ℕ)
    (m : HourlyMeasure) :
    alistLookup (appendMeasure fpd d m) d' =
      if d' = d then (alistLookup fpd d).map (· ++ [m]) else alistLookup fpd d' := by
  induction fpd with
  | nil => simp [appendMeasure, alistLookup]
  | cons p rest ih =>
      obtain ⟨k, v⟩ := p
      by_cases hkd : k = d
      · subst hkd
        simp only [appendMeasure, if_pos rfl]
        by_cases hk' : k = d'
        · subst hk'
          simp [alistLookup]
        · have h1 : ¬d' = k := fun h => hk' h.symm
          simp [alistLookup, hk', h1]
      · simp only [appendMeasure, if_neg hkd]
        by_cases hk' : k = d'
        · subst hk'
          simp [alistLookup, hkd]
        · simp [alistLookup, hk', hkd, ih]

/-- After `insertDay`, day `d` is present, holding its previous list or `[]`. -/
theorem alistLookup_insertDay_self (fpd : List (ℕ × List HourlyMeasure)) (d : ℕ) :
    alistLookup (insertDay fpd d) d = some ((alistLookup fpd d).getD []) := by
  unfold insertDay
  cases h : alistLookup fpd d with
  | some l => simp [h]
  | none => simp [h, alistLookup_append, alistLookup]

/-- `insertDay` never changes the measures a lookup-with-default sees. -/
theorem lookupD_insertDay (fpd : List (ℕ × List HourlyMeasure)) (d d' : ℕ) :
    (alistLookup (insertDay fpd d) d').getD [] = (alistLookup fpd d').getD [] := by
  unfold insertDay
  cases h : alistLookup fpd d with
  | some l => simp
  | none =>
      rw [if_neg (by simp), alistLookup_append]
      cases h' : alistLookup fpd d' with
      | some l => simp [h']
      | none =>
          by_cases hd : d = d' <;> simp [alistLookup, hd, h']

/-- One loop iteration adds, at the record's date and nowhere else, the
record's fully-resolved measure (when it resolves). -/
theorem lookupD_groupStep (fpd : List (ℕ × List HourlyMeasure)) (h : HourRecord)
    (d : ℕ) :
    (alistLookup (groupStep fpd h) d).getD [] =
      (alistLookup fpd d).getD []
        ++ (if h.time = some d then (resolveHour h).toList else []) := by
  unfold groupStep
  cases ht : h.time with
  | none => simp [ht]
  | some dk =>
      cases hr : resolveHour h with
      | none =>
          rw [lookupD_insertDay]
          by_cases hd : dk = d <;> simp [ht, hd]
      | some m =>
          rw [alistLookup_appendMeasure]
          by_cases hd : d = dk
          · subst hd
            simp [ht, alistLookup_insertDay_self]
          · have hd' : ¬(some dk = some d) := by
              intro hc
              exact hd (Option.some.inj hc).symm
            rw [if_neg hd, lookupD_insertDay]
            simp [ht, hd']

/-- Folding the loop over a list of hour records appends, per date, exactly
the fully-resolved measures of the records carrying that date. -/
theorem lookupD_foldl_groupStep (hours : List HourRecord)
    (fpd : List (ℕ × List HourlyMeasure)) (d : ℕ) :
    (alistLookup (hours.foldl groupStep fpd) d).getD [] =
      (alistLookup fpd d).getD [] ++ selectedMeasures hours d := by
  induction hours generalizing fpd with
  | nil => simp [selectedMeasures]
  | cons h t ih =>
      rw [List.foldl_cons, ih, lookupD_groupStep]
      have hsel : selectedMeasures (h :: t) d =
          (if h.time = some d then (resolveHour h).toList else [])
            ++ selectedMeasures t d := by
        simp only [selectedMeasures, List.filterMap_cons]
        by_cases hd : h.time = some d
        · cases hr : resolveHour h <;> simp [hd, hr]
        · simp [hd]
      rw [hsel, List.append_assoc]

/-- The code's per-day grouping followed by the lookup for a date yields
exactly that date's fully-resolved measures, in input order. -/
theorem lookupD_group_by_day (hours : List HourRecord) (d : ℕ) :
    (alistLookup (group_by_day hours) d).getD [] = selectedMeasures hours d := by
  rw [group_by_day, lookupD_foldl_groupStep]
  simp [alistLookup]

/-- C5: the 24-hour mode selects exactly the fully-resolved measures whose
date equals the requested (current) calendar date — the grouped lookup the
code performs equals the direct selection by date — and the spec-modelled
3-day mode reports exactly the 3 consecutive dates of its window, in
strictly increasing (chronological) order, pairing each date with its
aggregated summary or with `none` (insufficient data) when the date has
zero valid measures, never omitting the date. -/
theorem aggregation_modes (hours : List HourRecord) (d0 : ℕ) :
    ((alistLookup (group_by_day hours) d0).getD [] = selectedMeasures hours d0) ∧
    (threeDayReport hours d0 =
      [d0, d0 + 1, d0 + 2].map fun d =>
        (d, if selectedMeasures hours d = [] then none
            else some (aggregate (selectedMeasures hours d)))) ∧
    List.Chain' (· < ·) ((threeDayReport hours d0).map Prod.fst) := by
  refine ⟨lookupD_group_by_day hours d0, ?_, ?_⟩
  · simp [threeDayReport, lookupD_group_by_day]
  · simp only [threeDayReport, List.map_map, List.map_cons, List.map_nil,
      Function.comp]
    simp [List.chain'_cons]

/-- C7: per parameter, the resolved value is the first non-null value in
the fixed priority order noaa, sg, meteo; an hour yields a measure exactly
when all four parameters resolve; and an hour with any unresolved
parameter contributes nothing to any date's aggregated measures. -/
theorem field_resolution (m : SourceMap) (h : HourRecord) (v : ℚ) :
    (get_param_value m = some v ↔
      (dictGet m "noaa" = some v ∨
       (dictGet m "noaa" = none ∧ dictGet m "sg" = some v) ∨
       (dictGet m "noaa" = none ∧ dictGet m "sg" = none ∧
        dictGet m "meteo" = some v))) ∧
    ((resolveHour h).isSome ↔
      ((get_param_value h.waveHeight).isSome ∧
       (get_param_value h.wavePeriod).isSome ∧
       (get_param_value h.windSpeed).isSome ∧
       (get_param_value h.windDirection).isSome)) ∧
    (∀ (hs1 hs2 : List HourRecord) (d : ℕ), resolveHour h = none →
      (alistLookup (group_by_day (hs1 ++ h :: hs2)) d).getD [] =
        (alistLookup (group_by_day (hs1 ++ hs2)) d).getD []) := by
  refine ⟨?_, ?_, ?_⟩
  · simp only [get_param_value, SOURCES_PRIORITY]
    cases hn : dictGet m "noaa" with
    | some a => simp [firstSourceValue, hn]
    | none =>
        cases hs : dictGet m "sg" with
        | some b => simp [firstSourceValue, hn, hs]
        | none =>
            cases hm : dictGet m "meteo" with
            | some c => simp [firstSourceValue, hn, hs, hm]
            | none => simp [firstSourceValue, hn, hs, hm]
  · cases h1 : get_param_value h.waveHeight <;>
      cases h2 : get_param_value h.wavePeriod <;>
        cases h3 : get_param_value h.windSpeed <;>
          cases h4 : get_param_value h.windDirection <;>
            simp [resolveHour, h1, h2, h3, h4]
  · intro hs1 hs2 d hr
    rw [lookupD_group_by_day, lookupD_group_by_day]
    simp [selectedMeasures, List.filterMap_append, List.filterMap_cons, hr]

/-- C7 witness: an hour whose parameters all fail to resolve is dropped
silently — grouping with and without it yields the same measures. -/
theorem field_resolution_witness :
    (alistLookup (group_by_day ([] ++
        { time := some 3, waveHeight := [], wavePeriod := [],
          windSpeed := [], windDirection := [] } :: [])) 3).getD [] =
      (alistLookup (group_by_day ([] ++ [])) 3).getD [] :=
  (field_resolution []
    { time := some 3, waveHeight := [], wavePeriod := [],
      windSpeed := [], windDirection := [] } 0).2.2 [] [] 3 (by decide)

/-- C8: over a non-empty measure list the aggregation computes the exact
arithmetic mean of each numeric field — count times the reported average
equals the field's sum — and the compass label is obtained by passing the
numerically averaged wind direction exactly once through the encoder. -/
theorem aggregate_exact_mean (ms : List HourlyMeasure) (hne : ms ≠ []) :
    ((ms.length : ℚ) * (aggregate ms).avg_wave_height =
      (ms.map (·.wave_height)).sum) ∧
    ((ms.length : ℚ) * (aggregate ms).avg_wave_period =
      (ms.map (·.wave_period)).sum) ∧
    ((ms.length : ℚ) * (aggregate ms).avg_wind_speed =
      (ms.map (·.wind_speed)).sum) ∧
    ((ms.length : ℚ) * (aggregate ms).avg_wind_dir =
      (ms.map (·.wind_dir)).sum) ∧
    (aggregate ms).wind_dir_str = degrees_to_direction ((aggregate ms).avg_wind_dir) := by
  have hn : (ms.length : ℚ) ≠ 0 := by
    have := List.length_pos.mpr hne
    exact_mod_cast Nat.pos_iff_ne_zero.mp this
  refine ⟨?_, ?_, ?_, ?_, rfl⟩ <;>
    · simp only [aggregate]
      rw [mul_comm, div_mul_cancel₀ _ hn]

/-- C8 witness at a one-element list. -/
theorem aggregate_exact_mean_witness :
    (([⟨1, 2, 3, 4⟩] : List HourlyMeasure).length : ℚ) *
        (aggregate [⟨1, 2, 3, 4⟩]).avg_wave_height =
      (([⟨1, 2, 3, 4⟩] : List HourlyMeasure).map (·.wave_height)).sum :=
  (aggregate_exact_mean [⟨1, 2, 3, 4⟩] (by simp)).1

/-- C3: once a request reaches the primary fetch (known spot, cache miss),
a network exception or timeout invokes the fallback, an HTTP 402 invokes
the fallback, and any other non-200 status returns the fixed generic
failure message without invoking the fallback. -/
theorem primary_failure_asymmetry (env : Env) (cache : Cache) (spot : String)
    (hspot : (alistLookup SPOTS spot).isSome)
    (hmiss : get_cached_forecast cache spot env.now = none) :
    (env.primary = HttpOutcome.netError →
      (get_surf_forecast env cache spot).fallbackCalled = true) ∧
    (∀ hours, env.primary = HttpOutcome.response 402 hours →
      (get_surf_forecast env cache spot).fallbackCalled = true) ∧
    (∀ status hours, env.primary = HttpOutcome.response status hours →
      status ≠ 200 → status ≠ 402 →
      (get_surf_forecast env cache spot).reply =
          "Não consegui obter a previsão no momento 😞" ∧
        (get_surf_forecast env cache spot).fallbackCalled = false) := by
  obtain ⟨c, hc⟩ := Option.isSome_iff_exists.mp hspot
  refine ⟨?_, ?_, ?_⟩
  · intro hp
    simp [get_surf_forecast, hc, hmiss, hp]
  · intro hours hp
    simp [get_surf_forecast, hc, hmiss, hp]
  · intro status hours hp h200 h402
    simp [get_surf_forecast, hc, hmiss, hp, h200, h402]

/-- C3 witness: an HTTP 500 from the primary yields the generic failure
text with no fallback call. -/
theorem primary_failure_asymmetry_witness :
    (get_surf_forecast
        { now := 0, primary := HttpOutcome.response 500 [],
          fallback := HttpOutcome.netError } [] "floripa").reply =
        "Não consegui obter a previsão no momento 😞" ∧
      (get_surf_forecast
        { now := 0, primary := HttpOutcome.response 500 [],
          fallback := HttpOutcome.netError } [] "floripa").fallbackCalled = false :=
  (primary_failure_asymmetry
      { now := 0, primary := HttpOutcome.response 500 [],
        fallback := HttpOutcome.netError } [] "floripa"
      (by decide) (by decide)).2.2 500 [] rfl (by decide) (by decide)

/-- C4: frame property of the cache — whenever the fallback provider is on
the path (whether it succeeds or fails) the cache is left unchanged, and
whenever the cache does change, the run aggregated a successful 200
primary response without any fallback and the only write is the single
`set_cached_forecast` of the reply being returned. -/
theorem cache_write_frame (env : Env) (cache : Cache) (spot : String) :
    ((get_surf_forecast env cache spot).fallbackCalled = true →
      (get_surf_forecast env cache spot).cache = cache) ∧
    ((get_surf_forecast env cache spot).cache ≠ cache →
      (get_surf_forecast env cache spot).fallbackCalled = false ∧
      (get_surf_forecast env cache spot).aggregated = true ∧
      ∃ hours, env.primary = HttpOutcome.response 200 hours ∧
        (get_surf_forecast env cache spot).cache =
          set_cached_forecast cache spot (get_surf_forecast env cache spot).reply
            env.now) := by
  unfold get_surf_forecast
  cases halist : alistLookup SPOTS spot with
  | none => simp
  | some c =>
      cases hmiss : get_cached_forecast cache spot env.now with
      | some cached => simp
      | none =>
          cases hp : env.primary with
          | netError => simp
          | response status hours =>
              by_cases h402 : status = 402
              · simp [h402]
              · by_cases h200 : status = 200
                · subst h200
                  by_cases hh : hours = []
                  · simp [h402, hh]
                  · by_cases hm :
                      (alistLookup (group_by_day hours) (dateOf env.now)).getD [] = []
                    · simp [h402, hh, hm]
                    · refine ⟨fun hfb => ?_, fun hch => ⟨?_, ?_, hours, rfl, ?_⟩⟩
                      · simp [h402, hh, hm] at hfb
                      · simp [h402, hh, hm]
                      · simp [h402, hh, hm]
                      · simp [h402, hh, hm]
                · simp [h402, h200]

/-- C4 witness: a timed-out primary call invokes the fallback and leaves
the cache unchanged. -/
theorem cache_write_frame_witness :
    (get_surf_forecast
        { now := 0, primary := HttpOutcome.netError,
          fallback := HttpOutcome.netError } [] "itajai").cache = [] :=
  (cache_write_frame
    { now := 0, primary := HttpOutcome.netError, fallback := HttpOutcome.netError }
    [] "itajai").1 (by decide)

/-- C6: with a known spot, a cache miss and a primary response, an empty
set of resolved measures for the current date on a 200 response sends the
request to the fallback provider instead of aggregating, and aggregation
(the per-field mean divisions) is reached only with a measure list of
non-zero length — division by zero is unreachable. -/
theorem zero_measures_forces_fallback (env : Env) (cache : Cache) (spot : String)
    (status : ℕ) (hours : List HourRecord)
    (hspot : (alistLookup SPOTS spot).isSome)
    (hmiss : get_cached_forecast cache spot env.now = none)
    (hp : env.primary = HttpOutcome.response status hours) :
    (status = 200 → selectedMeasures hours (dateOf env.now) = [] →
      (get_surf_forecast env cache spot).fallbackCalled = true ∧
      (get_surf_forecast env cache spot).aggregated = false) ∧
    ((get_surf_forecast env cache spot).aggregated = true →
      ((alistLookup (group_by_day hours) (dateOf env.now)).getD []).length ≠ 0) := by
  obtain ⟨c, hc⟩ := Option.isSome_iff_exists.mp hspot
  constructor
  · intro h200 hsel
    subst h200
    have hm : (alistLookup (group_by_day hours) (dateOf env.now)).getD [] = [] := by
      rw [lookupD_group_by_day]
      exact hsel
    by_cases hh : hours = []
    · constructor <;> simp [get_surf_forecast, hc, hmiss, hp, hh]
    · constructor <;> simp [get_surf_forecast, hc, hmiss, hp, hh, hm]
  · intro hagg
    by_cases hm : (alistLookup (group_by_day hours) (dateOf env.now)).getD [] = []
    · exfalso
      by_cases h200 : status = 200
      · subst h200
        by_cases hh : hours = [] <;>
          simp [get_surf_forecast, hc, hmiss, hp, hh, hm] at hagg
      · by_cases h402 : status = 402 <;>
          simp [get_surf_forecast, hc, hmiss, hp, h402, h200] at hagg
    · intro hlen
      exact hm (List.length_eq_zero.mp hlen)

/-- C6 witness: a 200 response with an empty hours list yields zero
measures for the current date, so the fallback is invoked and no
aggregation happens. -/
theorem zero_measures_forces_fallback_witness :
    (get_surf_forecast
        { now := 0, primary := HttpOutcome.response 200 [],
          fallback := HttpOutcome.netError } [] "guarda").fallbackCalled = true ∧
      (get_surf_forecast
        { now := 0, primary := HttpOutcome.response 200 [],
          fallback := HttpOutcome.netError } [] "guarda").aggregated = false :=
  (zero_measures_forces_fallback
      { now := 0, primary := HttpOutcome.response 200 [],
        fallback := HttpOutcome.netError } [] "guarda" 200 []
      (by decide) (by decide) rfl).1 rfl (by decide)
